import Mathlib

/-!
Verification of the zone-computation engine of the geomarketing repository
(`zones_core_km.py`): haversine distance, per-zone socio-demographic
aggregation, radius-based zone resolution with its memoization cache, and the
pipeline that rolls zones up into per-point and per-cell views.

Modelling conventions:
* Python floats are modelled by real numbers for the geometric quantities and
  by rationals for socio-demographic columns (whose arithmetic is exact in the
  properties verified here); a pandas `NaN` cell is `Option.none`.
* `round` is Python 3 `round` (half to even).
* The GeoPandas / Shapely operations that the source calls (the EPSG:3857
  projection, polygon buffering and the R-tree `sindex.query`) are external
  library calls; they are modelled by an oracle `query` carried by the loaded
  cell index, returning candidate cell codes for the buffered centre geometry.
* The module-level globals `_IRIS_GDF_3857`/`_IRIS_SINDEX`/`_IRIS_CENTROIDS_4326`
  (whether the index has been prepared) and `_ZONE_CACHE_KM` are threaded as an
  explicit `ResolverState`.
-/

namespace Geomarketing

/-! ### Python rounding (half to even), over ℚ and over ℝ -/

/-- Python 3 `round(q)`: nearest integer, ties to the even integer. -/
def pyRound (q : ℚ) : ℤ :=
  let f := ⌊q⌋
  if q - f < 1/2 then f
  else if 1/2 < q - f then f + 1
  else if f % 2 = 0 then f else f + 1

/-- Python `round(q, 2)`. -/
def pyRound2 (q : ℚ) : ℚ := (pyRound (q * 100) : ℚ) / 100

/-- Python `round(q, 1)`. -/
def pyRound1 (q : ℚ) : ℚ := (pyRound (q * 10) : ℚ) / 10

open Classical in
/-- Python 3 `round(x)` on a real-valued quantity. -/
noncomputable def pyRoundR (x : ℝ) : ℤ :=
  if x - ⌊x⌋ < 1/2 then ⌊x⌋
  else if 1/2 < x - ⌊x⌋ then ⌊x⌋ + 1
  else if ⌊x⌋ % 2 = 0 then ⌊x⌋ else ⌊x⌋ + 1

/-- Python `round(x, 2)` on a real-valued quantity. -/
noncomputable def pyRound2R (x : ℝ) : ℝ := (pyRoundR (x * 100) : ℝ) / 100

/-! ### Data model: one IRIS statistical cell

One row of `iris_socio_gdf`: the cell code, the WGS84 centroid that
`_IRIS_CENTROIDS_4326` associates to the code, and the socio-demographic
columns used by `calculer_stats_zone_complet` (the fixed schema that
`load_iris_data` produces; a missing/NaN value is `none`). -/

structure IrisCell where
  code : String
  latC : ℝ
  lonC : ℝ
  pop : Option ℚ
  revenu : Option ℚ
  age_0_17 : Option ℚ
  etudiants_18_24 : Option ℚ
  actifs_25_39 : Option ℚ
  age_40_64 : Option ℚ
  age_65_plus : Option ℚ
  hommes : Option ℚ
  femmes : Option ℚ
  agriculteurs : Option ℚ
  commercants : Option ℚ
  cadres : Option ℚ
  intermediaires : Option ℚ
  employes : Option ℚ
  ouvriers : Option ℚ
  retraites : Option ℚ
  autres_inactifs : Option ℚ

/-- pandas `Series.sum(skipna=True)`: missing values contribute nothing. -/
def sumOpt (l : List (Option ℚ)) : ℚ := (l.filterMap id).sum

/-- A value of the heterogeneous stats dictionary built by
`calculer_stats_zone_complet`: a Python int, a float, `None`, or a nested
dictionary of floats. -/
inductive StatValue where
  | int (n : ℤ)
  | rat (q : ℚ)
  | null
  | dict (entries : List (String × ℚ))
  deriving DecidableEq

/-- `calculer_stats_zone_complet` (zones_core_km.py, lines 155-223): the
socio-demographic summary of a list of cells, as the ordered key/value list
of the Python dict. The `all(col in df_zone.columns ...)` guards are
always true under the fixed schema of the data model. -/
def calculer_stats_zone_complet : List IrisCell → List (String × StatValue)
  | [] => [("Population totale", .int 0)]
  | df_zone@(_ :: _) =>
    let pop_totale := sumOpt (df_zone.map (·.pop))
    let resultats₁ := [("Population totale", StatValue.int (pyRound pop_totale))]
    let df_revenu := df_zone.filter (fun c => c.revenu.isSome)
    let resultats₂ :=
      if df_revenu.isEmpty then [("Revenu médian pondéré (€)", StatValue.null)]
      else
        let num := sumOpt (df_revenu.map (fun c =>
          match c.pop, c.revenu with
          | some p, some r => some (p * r)
          | _, _ => Option.none))
        let den := sumOpt (df_revenu.map (·.pop))
        [("Revenu médian pondéré (€)", StatValue.rat (pyRound2 (num / den)))]
    let age_cols : List (String × ℚ) :=
      [("AGE_0_17", sumOpt (df_zone.map (·.age_0_17))),
       ("ETUDIANTS_18_24", sumOpt (df_zone.map (·.etudiants_18_24))),
       ("ACTIFS_25_39", sumOpt (df_zone.map (·.actifs_25_39))),
       ("AGE_40_64", sumOpt (df_zone.map (·.age_40_64))),
       ("AGE_65_PLUS", sumOpt (df_zone.map (·.age_65_plus)))]
    let age_total := (age_cols.map (·.2)).sum
    let resultats₃ :=
      if 0 < age_total then
        [("Répartition par âge (%)", StatValue.dict
          (age_cols.map (fun kv => (kv.1, pyRound1 (kv.2 / age_total * 100)))))]
      else []
    let hommes := sumOpt (df_zone.map (·.hommes))
    let femmes := sumOpt (df_zone.map (·.femmes))
    let total_sexe := hommes + femmes
    let resultats₄ :=
      if 0 < total_sexe then
        [("Répartition par sexe (%)", StatValue.dict
          [("Hommes (%)", pyRound1 (hommes / total_sexe * 100)),
           ("Femmes (%)", pyRound1 (femmes / total_sexe * 100))])]
      else []
    let csp_cols : List (String × ℚ) :=
      [("AGRICULTEURS", sumOpt (df_zone.map (·.agriculteurs))),
       ("COMMERCANTS", sumOpt (df_zone.map (·.commercants))),
       ("CADRES", sumOpt (df_zone.map (·.cadres))),
       ("INTERMEDIAIRES", sumOpt (df_zone.map (·.intermediaires))),
       ("EMPLOYES", sumOpt (df_zone.map (·.employes))),
       ("OUVRIERS", sumOpt (df_zone.map (·.ouvriers))),
       ("RETRAITES", sumOpt (df_zone.map (·.retraites))),
       ("AUTRES_INACTIFS", sumOpt (df_zone.map (·.autres_inactifs)))]
    let csp_total := (csp_cols.map (·.2)).sum
    let resultats₅ :=
      if 0 < csp_total then
        [("Répartition par CSP (%)", StatValue.dict
          (csp_cols.map (fun kv => (kv.1, pyRound1 (kv.2 / csp_total * 100)))))]
      else []
    resultats₁ ++ resultats₂ ++ resultats₃ ++ resultats₄ ++ resultats₅

/-! ### String normalization helpers

`str(x).strip().lower()` and the single-character `.replace` calls of
`flatten_stats`, modelled at the character level (the built-in `String`
loops do not reduce in the kernel; these definitions are extensionally the
same operations for the patterns the source uses). -/

/-- `str(env_val).strip().lower()`. -/
def normalizeEnv (s : String) : String :=
  String.mk
    (((s.data.dropWhile (·.isWhitespace)).reverse.dropWhile
        (·.isWhitespace)).reverse.map Char.toLower)

/-- `k.replace(" ", "_").replace("(", "").replace(")", "")`. -/
def cleanKey (s : String) : String :=
  String.mk (s.data.filterMap (fun c =>
    if c = ' ' then some '_' else if c = '(' ∨ c = ')' then none else some c))

/-- `flatten_stats` (zones_core_km.py, lines 312-328): flatten one level of
nested dictionaries, cleaning the keys. -/
def flatten_stats (stats : List (String × StatValue)) : List (String × StatValue) :=
  stats.flatMap (fun kv =>
    let col := cleanKey kv.1
    match kv.2 with
    | .dict entries =>
      entries.map (fun e => (cleanKey (col ++ "_" ++ e.1), StatValue.rat e.2))
    | v => [(col, v)])

/-! ### Haversine distance (`haversine_km`, zones_core_km.py lines 28-37) -/

/-- `math.radians`. -/
noncomputable def radians (x : ℝ) : ℝ := x * (Real.pi / 180)

open Classical in
/-- `math.atan2 y x` (the half-plane-aware arctangent). -/
noncomputable def atan2 (y x : ℝ) : ℝ :=
  if 0 < x then Real.arctan (y / x)
  else if x < 0 ∧ 0 ≤ y then Real.arctan (y / x) + Real.pi
  else if x < 0 ∧ y < 0 then Real.arctan (y / x) - Real.pi
  else if x = 0 ∧ 0 < y then Real.pi / 2
  else if x = 0 ∧ y < 0 then -(Real.pi / 2)
  else 0

/-- `haversine_km`: great-circle distance in km between two lat/lon points
on a sphere of radius 6371 km. -/
noncomputable def haversine_km (lat1 lon1 lat2 lon2 : ℝ) : ℝ :=
  let R : ℝ := 6371.0
  let dlat := radians (lat2 - lat1)
  let dlon := radians (lon2 - lon1)
  let a := Real.sin (dlat / 2) ^ 2 +
    Real.cos (radians lat1) * Real.cos (radians lat2) * Real.sin (dlon / 2) ^ 2
  let c := 2 * atan2 (Real.sqrt a) (Real.sqrt (1 - a))
  R * c

/-! ### Zone resolution (`_get_zone_for_group_distance`) -/

/-- One value of `env_params`: the inner dict, whose radius is read with
`.get("rayon_km", 0)`. -/
structure EnvParam where
  rayon_km : Option ℝ

/-- The loaded IRIS layer together with the spatial-index oracle:
`query code r` models `list(_IRIS_SINDEX.query(centre_geom.buffer(r)))`,
the candidate cell codes whose projected (EPSG:3857) geometry the R-tree
reports for the buffer of radius `r` metres around the centre cell's
projected geometry.  The projection and the R-tree live in GeoPandas/Shapely,
outside this repository, so the oracle is data of the loaded index. -/
structure CellIndex where
  cells : List IrisCell
  query : String → ℝ → List String

/-- The two failure kinds of the resolver (both `ValueError` in the source,
distinguished by their message): a missing/non-positive radius
(`InvalidConfig`, carrying the normalized class) and an absent centre cell
(`NotFound`, carrying the cell code). -/
inductive ZoneError where
  | invalidConfig (envClass : String)
  | notFound (code : String)
  deriving DecidableEq

/-- The `stats_zone` dictionary of one resolved zone: the socio-demographic
entries from `calculer_stats_zone_complet` plus the three radius entries the
resolver appends. -/
structure ZoneStats where
  socio : List (String × StatValue)
  rayon_max_km : ℝ
  rayon_moy_km : ℝ
  rayon_theorique_km : ℝ

/-- The memoization key: `(code_iris_centre, env_val_norm, rayon_km)`. -/
abbrev ZoneKey := String × String × ℝ

/-- A `_ZONE_CACHE_KM` entry: `(keep_codes, stats_zone)`. -/
abbrev ZoneVal := List String × ZoneStats

/-- The module-level mutable state of zones_core_km: whether
`_prepare_iris_index` has run (`_IRIS_GDF_3857 is not None`) and the zone
cache `_ZONE_CACHE_KM` (as an association list; insertion prepends). -/
structure ResolverState where
  indexBuilt : Bool
  cache : List (ZoneKey × ZoneVal)

/-- `env_val_norm in env_params` / `env_params[env_val_norm]`. -/
def lookupEnv (ps : List (String × EnvParam)) (k : String) : Option EnvParam :=
  (ps.find? (fun p => p.1 == k)).map (·.2)

open Classical in
/-- `cache_key in _ZONE_CACHE_KM` / `_ZONE_CACHE_KM[cache_key]`. -/
noncomputable def cacheLookup : List (ZoneKey × ZoneVal) → ZoneKey → Option ZoneVal
  | [], _ => none
  | (k, v) :: rest, key => if key = k then some v else cacheLookup rest key

open Classical in
/-- The candidate loop of the resolver (lines 287-293): walk the candidate
cells, keep the codes whose centroid is within `rayon_km * 1.05` km of the
centre centroid, collecting the kept distances. -/
noncomputable def keepWithin (lat0 lon0 rayon_km : ℝ) :
    List IrisCell → List String × List ℝ
  | [] => ([], [])
  | c :: rest =>
    let d_km := haversine_km lat0 lon0 c.latC c.lonC
    let tail := keepWithin lat0 lon0 rayon_km rest
    if d_km ≤ rayon_km * 1.05 then (c.code :: tail.1, d_km :: tail.2) else tail

/-- `candidats` (lines 280-284): the cells whose code the spatial index
reports for the buffer of `rayon_km * 1000` metres around the centre. -/
def candidats_for (iris : CellIndex) (code : String) (rayon_km : ℝ) : List IrisCell :=
  iris.cells.filter (fun c => (iris.query code (rayon_km * 1000.0)).contains c.code)

/-- `keep_codes` and `distances` (lines 287-293). -/
noncomputable def keep_for (iris : CellIndex) (code : String) (rayon_km : ℝ)
    (c0 : IrisCell) : List String × List ℝ :=
  keepWithin c0.latC c0.lonC rayon_km (candidats_for iris code rayon_km)

/-- `iris_zone` (line 295): the loaded rows whose code was kept. -/
noncomputable def zone_for (iris : CellIndex) (code : String) (rayon_km : ℝ)
    (c0 : IrisCell) : List IrisCell :=
  iris.cells.filter (fun c => (keep_for iris code rayon_km c0).1.contains c.code)

/-- `stats_zone` with the appended radius entries (lines 296-305). -/
noncomputable def statsOf (rayon_km : ℝ) (socio : List (String × StatValue)) :
    List ℝ → ZoneStats
  | [] => ⟨socio, 0, 0, rayon_km⟩
  | d :: ds =>
    ⟨socio, pyRound2R (ds.foldl max d),
      pyRound2R ((d :: ds).sum / (d :: ds).length), rayon_km⟩

/-- The `(keep_codes, stats_zone)` pair a fresh computation stores in the
cache. -/
noncomputable def computedVal (iris : CellIndex) (code : String) (r : ℝ)
    (c0 : IrisCell) : ZoneVal :=
  ((keep_for iris code r c0).1,
   statsOf r (calculer_stats_zone_complet (zone_for iris code r c0))
     (keep_for iris code r c0).2)

/-- `_get_zone_for_group_distance` (zones_core_km.py, lines 232-310), with the
module-level state passed explicitly.  Returns the result (the zone's cells
and its stats, or the error), the updated state, and an instrumentation flag
recording whether the spatial index was queried during this call. -/
noncomputable def _get_zone_for_group_distance
    (code_iris_centre env_val : String)
    (iris : CellIndex) (env_params : List (String × EnvParam))
    (st : ResolverState) :
    Except ZoneError (List IrisCell × ZoneStats) × ResolverState × Bool :=
  -- _prepare_iris_index runs first, before any validation
  let st1 : ResolverState := { st with indexBuilt := true }
  let env_val_norm := normalizeEnv env_val
  match lookupEnv env_params env_val_norm with
  | none => (.error (.invalidConfig env_val_norm), st1, false)
  | some p =>
    let rayon_km : ℝ := p.rayon_km.getD 0
    if rayon_km ≤ 0 then (.error (.invalidConfig env_val_norm), st1, false)
    else
      let cache_key : ZoneKey := (code_iris_centre, env_val_norm, rayon_km)
      match cacheLookup st1.cache cache_key with
      | some v =>
        (.ok (iris.cells.filter (fun c => v.1.contains c.code), v.2), st1, false)
      | none =>
        match iris.cells.find? (fun c => c.code == code_iris_centre) with
        | none => (.error (.notFound code_iris_centre), st1, false)
        | some c0 =>
          let kd := keep_for iris code_iris_centre rayon_km c0
          let iris_zone := zone_for iris code_iris_centre rayon_km c0
          let stats := statsOf rayon_km (calculer_stats_zone_complet iris_zone) kd.2
          (.ok (iris_zone, stats),
           { st1 with cache := (cache_key, (kd.1, stats)) :: st1.cache }, true)

/-! ### The pipeline (`compute_zones_for_relais`, zones_core_km.py lines 334-496) -/

/-- One relay point after loading.  `code_iris_point` carries the result of
the `sjoin(..., predicate="within")` spatial join (a GeoPandas point-in-
polygon test, external to this repository): the code of the containing IRIS
cell, or `none` for an orphan point. -/
structure RelaisPoint where
  id_point : String
  nom_point : String
  lat : ℝ
  lon : ℝ
  statut : String
  code_iris_point : Option String

/-- `points_with_iris.dropna(subset=["code_iris_point"])`: the matched
points, each paired with its assigned cell code. -/
def pointsWithIris (points : List RelaisPoint) : List (RelaisPoint × String) :=
  points.filterMap (fun p => p.code_iris_point.map (fun c => (p, c)))

/-- The distinct `(code_iris_point, statut)` group keys.  pandas `groupby`
lists them in sorted key order; they are kept here in first-occurrence order,
which the verified properties do not depend on. -/
def groupKeys (pwi : List (RelaisPoint × String)) : List (String × String) :=
  pwi.foldl (fun acc pc =>
    let k := (pc.2, pc.1.statut)
    if acc.contains k then acc else acc ++ [k]) []

/-- The member points of one `(code_iris_point, statut)` group. -/
def groupMembers (pwi : List (RelaisPoint × String)) (k : String × String) :
    List RelaisPoint :=
  (pwi.filter (fun pc => pc.2 == k.1 && pc.1.statut == k.2)).map (·.1)

/-- One row of `zones_df`: a point together with the flattened stats of its
group's zone.  The three radius entries of the flattened dict are carried as
the last three fields.  (The optional `Adresse`/`Commune` columns are not
modelled.) -/
structure PointRow where
  id_point : String
  nom_point : String
  latitude : ℝ
  longitude : ℝ
  statut_point : String
  code_iris_centre : String
  stats : List (String × StatValue)
  rayon_max_km : ℝ
  rayon_moy_km : ℝ
  rayon_theorique_km : ℝ

/-- One zone's contribution to `iris_zone_all`: the centre code, the raw
environment value, and the member cell codes (the `CODE_IRIS` column of the
appended `iris_zone` frame). -/
abbrev ZoneRow := String × String × List String

/-- `nb_zones_total` of one cell:
`iris_zone_all.groupby(CODE_IRIS)["code_iris_centre"].nunique()` — the number
of distinct centre cells whose zone rows contain the cell. -/
def coverageCount (zone_rows : List ZoneRow) (code : String) : ℕ :=
  (((zone_rows.filter (fun zr => zr.2.2.contains code)).map (fun zr => zr.1)).dedup).length

/-- The walk behind `drop_duplicates`: keep a row iff its code has not been
seen yet. -/
def dedupByCodeAux (seen : List String) : List IrisCell → List IrisCell
  | [] => []
  | c :: rest =>
    if seen.contains c.code then dedupByCodeAux seen rest
    else c :: dedupByCodeAux (c.code :: seen) rest

/-- `iris_socio_gdf.drop_duplicates(subset=[CODE_IRIS])`: keep the first row
of each cell code, in frame order (a later row with an already-seen code is
dropped). -/
def dedupByCode (cells : List IrisCell) : List IrisCell := dedupByCodeAux [] cells

/-- The per-cell view `iris_agg_df` restricted to the columns the verified
properties mention: `(CODE_IRIS, nb_zones_total)` for every loaded cell, with
the `nb_zones_total > 0` filter of line 484 applied.  (The per-class
`nb_zones_*` columns and `type_env_iris` are built from the same counts and
are not modelled.) -/
def irisAggView (cells : List IrisCell) (zone_rows : List ZoneRow) :
    List (String × ℕ) :=
  ((dedupByCode cells).map (fun c => (c.code, coverageCount zone_rows c.code))).filter
    (fun r => decide (0 < r.2))

/-- The pipeline result: the per-point view `zones_df`, the intermediate
`iris_zone_all` it is aggregated from, the per-cell view `iris_agg_df`, and
`stats_globales`. -/
structure PipelineResult where
  zones_rows : List PointRow
  zone_rows : List ZoneRow
  iris_agg : List (String × ℕ)
  stats_globales : List (String × StatValue)

/-- The group loop of `compute_zones_for_relais` (lines 400-430): resolve
each group in order, threading the resolver state; an exception from
`_get_zone_for_group_distance` propagates immediately (there is no
per-group try/except). -/
noncomputable def runGroups (iris : CellIndex) (env_params : List (String × EnvParam))
    (pwi : List (RelaisPoint × String)) :
    List (String × String) → ResolverState →
    Except ZoneError (List ZoneRow × List PointRow) × ResolverState
  | [], st => (.ok ([], []), st)
  | k :: rest, st =>
    match _get_zone_for_group_distance k.1 k.2 iris env_params st with
    | (.error e, st', _) => (.error e, st')
    | (.ok z, st', _) =>
      match runGroups iris env_params pwi rest st' with
      | (.error e, st'') => (.error e, st'')
      | (.ok zp, st'') =>
        let rows := (groupMembers pwi k).map (fun p => (
          { id_point := p.id_point, nom_point := p.nom_point,
            latitude := p.lat, longitude := p.lon,
            statut_point := p.statut, code_iris_centre := k.1,
            stats := flatten_stats z.2.socio,
            rayon_max_km := z.2.rayon_max_km,
            rayon_moy_km := z.2.rayon_moy_km,
            rayon_theorique_km := z.2.rayon_theorique_km } : PointRow))
        (.ok ((k.1, k.2, z.1.map (·.code)) :: zp.1, rows ++ zp.2), st'')

/-- `compute_zones_for_relais`: assign (already-joined) points, group them,
resolve every group, and build the three views.  (`pd.concat` on an empty
row list raises in the source; no verified property exercises a run with
zero groups.  The diagnostic export of orphan points is a side effect with
no influence on the result.) -/
noncomputable def compute_zones_for_relais (points : List RelaisPoint)
    (iris : CellIndex) (env_params : List (String × EnvParam))
    (st : ResolverState) :
    Except ZoneError PipelineResult × ResolverState :=
  let pwi := pointsWithIris points
  match runGroups iris env_params pwi (groupKeys pwi) st with
  | (.error e, st') => (.error e, st')
  | (.ok zp, st') =>
    let agg := irisAggView iris.cells zp.1
    let couverts := agg.map (·.1)
    let iris_sub := iris.cells.filter (fun c => couverts.contains c.code)
    (.ok { zones_rows := zp.2, zone_rows := zp.1, iris_agg := agg,
           stats_globales := calculer_stats_zone_complet iris_sub }, st')

/-! ### The spec-side formula for the weighted income (refinement target) -/

/-- The specification's formula for `weightedMedianIncome`: the
population-weighted average of the income attribute over the cells whose
income is present (a missing population attribute weighs zero). -/
def specWeightedIncome (cells : List IrisCell) : ℚ :=
  (((cells.filter (fun c => c.revenu.isSome)).map
      (fun c => c.pop.getD 0 * c.revenu.getD 0)).sum) /
  (((cells.filter (fun c => c.revenu.isSome)).map (fun c => c.pop.getD 0)).sum)

/-! ### Concrete instances used by witnesses and counterexamples -/

/-- A cell at centroid (0, 0) whose only possibly-present socio attributes
are population and income. -/
def mkCell (code : String) (pop revenu : Option ℚ) : IrisCell :=
  { code := code, latC := 0, lonC := 0, pop := pop, revenu := revenu,
    age_0_17 := none, etudiants_18_24 := none, actifs_25_39 := none,
    age_40_64 := none, age_65_plus := none, hommes := none, femmes := none,
    agriculteurs := none, commercants := none, cadres := none,
    intermediaires := none, employes := none, ouvriers := none,
    retraites := none, autres_inactifs := none }

def cellA : IrisCell := mkCell "A" Option.none Option.none

def cellB : IrisCell := mkCell "B" Option.none Option.none

def cexC1 : IrisCell := mkCell "C1" (some 1) (some 1)

def cexC2 : IrisCell := mkCell "C2" (some 2) (some 2)

/-- Environment parameters: urban → 2 km, rural → 3 km. -/
def psW : List (String × EnvParam) := [("urban", ⟨some 2⟩), ("rural", ⟨some 3⟩)]

/-- Fresh module state: index not prepared, empty cache. -/
def st0 : ResolverState := ⟨false, []⟩

/-- A one-cell layer whose spatial index reports each queried centre itself. -/
def indexA : CellIndex := ⟨[cellA], fun c _ => [c]⟩

/-- A two-cell layer (both centroids coincide) whose spatial index reports
only cell "A" as candidate — the planar buffer query missing a cell whose
centroid is within range. -/
def index2 : CellIndex := ⟨[cellA, cellB], fun _ _ => ["A"]⟩

def p1 : RelaisPoint := ⟨"1", "P1", 0, 0, "urban", some "A"⟩

def p2 : RelaisPoint := ⟨"2", "P2", 0, 0, "suburban", some "A"⟩

/-- The per-point row the single-point run produces. -/
noncomputable def rowP1 : PointRow :=
  { id_point := "1", nom_point := "P1", latitude := 0, longitude := 0,
    statut_point := "urban", code_iris_centre := "A",
    stats := flatten_stats (computedVal indexA "A"
      ((⟨some 2⟩ : EnvParam).rayon_km.getD 0) cellA).2.socio,
    rayon_max_km := (computedVal indexA "A"
      ((⟨some 2⟩ : EnvParam).rayon_km.getD 0) cellA).2.rayon_max_km,
    rayon_moy_km := (computedVal indexA "A"
      ((⟨some 2⟩ : EnvParam).rayon_km.getD 0) cellA).2.rayon_moy_km,
    rayon_theorique_km := (computedVal indexA "A"
      ((⟨some 2⟩ : EnvParam).rayon_km.getD 0) cellA).2.rayon_theorique_km }

/-- The pipeline result of the single-point run. -/
noncomputable def resA : PipelineResult :=
  { zones_rows := [rowP1],
    zone_rows := [("A", "urban", ["A"])],
    iris_agg := [("A", 1)],
    stats_globales := calculer_stats_zone_complet [cellA] }

/-- The module state after the single-point run. -/
noncomputable def stA : ResolverState :=
  ⟨true, [(("A", normalizeEnv "urban", (⟨some 2⟩ : EnvParam).rayon_km.getD 0),
    computedVal indexA "A" ((⟨some 2⟩ : EnvParam).rayon_km.getD 0) cellA)]⟩

/-! ## Theorems -/

/-! ### Distance model -/

/-- The haversine of a point with itself collapses to `R * (2 * atan2 0 1)`,
which is 0. -/
theorem haversine_same_point (lat lon : ℝ) : haversine_km lat lon lat lon = 0 := by
  simp [haversine_km, radians, atan2, Real.arctan_zero]

/-- Claim C9: `haversine_km` applied to a coordinate pair and itself returns
exactly 0. -/
theorem haversine_km_self_zero (lat lon : ℝ) : haversine_km lat lon lat lon = 0 :=
  haversine_same_point lat lon

/-- `atan2` on a nonnegative quadrant lands in `[0, π/2]`. -/
theorem atan2_nonneg_le {y x : ℝ} (hy : 0 ≤ y) (hx : 0 ≤ x) :
    0 ≤ atan2 y x ∧ atan2 y x ≤ Real.pi / 2 := by
  unfold atan2
  split_ifs with h1 h2 h3 h4 h5
  · refine ⟨?_, (Real.arctan_lt_pi_div_two _).le⟩
    have h0 := Real.arctan_strictMono.monotone (div_nonneg hy h1.le)
    rwa [Real.arctan_zero] at h0
  · exact absurd h2.1 (not_lt.mpr hx)
  · exact absurd h3.1 (not_lt.mpr hx)
  · exact ⟨by positivity, le_refl _⟩
  · exact absurd h5.2 (not_lt.mpr hy)
  · exact ⟨le_refl _, by positivity⟩

/-- The haversine core `6371 * (2 * atan2 √a √(1-a))` lies in `[0, 6371π]`
for every real `a`. -/
theorem haversine_core_range (a : ℝ) :
    0 ≤ 6371.0 * (2 * atan2 (Real.sqrt a) (Real.sqrt (1 - a))) ∧
      6371.0 * (2 * atan2 (Real.sqrt a) (Real.sqrt (1 - a))) ≤ Real.pi * 6371 := by
  obtain ⟨h1, h2⟩ := atan2_nonneg_le (Real.sqrt_nonneg a) (Real.sqrt_nonneg (1 - a))
  constructor <;> nlinarith [Real.pi_pos]

/-- Claim C10: `haversine_km` always returns a value in `[0, π * 6371]`
(half the model sphere's circumference); in particular it is never
negative. -/
theorem haversine_km_nonneg_bounded (lat1 lon1 lat2 lon2 : ℝ) :
    0 ≤ haversine_km lat1 lon1 lat2 lon2 ∧
      haversine_km lat1 lon1 lat2 lon2 ≤ Real.pi * 6371 := by
  simp only [haversine_km]
  exact haversine_core_range _

/-! ### Stats aggregation -/

/-- Claim C8: the aggregator applied to an empty cell collection returns
exactly the one-entry dictionary `{"Population totale": 0}`. -/
theorem aggregate_empty_exact :
    calculer_stats_zone_complet [] = [("Population totale", StatValue.int 0)] := rfl

/-- `skipna` summation equals summation with missing values as 0. -/
theorem sumOpt_eq_sum_getD (l : List (Option ℚ)) :
    sumOpt l = (l.map (fun o => o.getD 0)).sum := by
  induction l with
  | nil => rfl
  | cons o rest ih =>
    cases o <;> simp [sumOpt, List.filterMap_cons] at ih ⊢ <;> simp [ih]

/-- Over the income-present cells, the source's skipna numerator equals the
spec's `pop.getD 0 * revenu` numerator. -/
theorem sumOpt_prod_eq (l : List IrisCell) :
    sumOpt ((l.filter (fun c => c.revenu.isSome)).map (fun c =>
        match c.pop, c.revenu with
        | some p, some r => some (p * r)
        | _, _ => Option.none)) =
      ((l.filter (fun c => c.revenu.isSome)).map
        (fun c => c.pop.getD 0 * c.revenu.getD 0)).sum := by
  rw [sumOpt_eq_sum_getD, List.map_map]
  refine congrArg List.sum (List.map_congr_left ?_)
  intro c hc
  have h : c.revenu.isSome := (List.mem_filter.mp hc).2
  obtain ⟨r, hr⟩ := Option.isSome_iff_exists.mp (by simpa using h)
  cases hp : c.pop <;> simp [hr, hp]

/-- `skipna` summation of the population column as a weight sum. -/
theorem sumOpt_pop_eq (L : List IrisCell) :
    sumOpt (L.map (fun c => c.pop)) = (L.map (fun c => c.pop.getD 0)).sum := by
  rw [sumOpt_eq_sum_getD, List.map_map]; rfl

/-- The aggregator's income entry on any non-empty input: `None` when no
income value is present, otherwise the weighted average rounded to 2
decimals. -/
theorem income_entry_spec (cells : List IrisCell) (hne : cells ≠ []) :
    (calculer_stats_zone_complet cells).lookup "Revenu médian pondéré (€)" =
      some (if (cells.filter (fun c => c.revenu.isSome)).isEmpty
            then StatValue.null
            else StatValue.rat (pyRound2 (specWeightedIncome cells))) := by
  obtain ⟨c, rest, rfl⟩ := List.exists_cons_of_ne_nil hne
  by_cases hemp : ((c :: rest).filter (fun c => c.revenu.isSome)).isEmpty
  · simp [calculer_stats_zone_complet, hemp, List.lookup]
  · simp [calculer_stats_zone_complet, hemp, List.lookup, specWeightedIncome,
      sumOpt_prod_eq, sumOpt_pop_eq]

/-- Claim C7 (amended): for every non-empty cell list, the aggregator's
income entry is the population-weighted average of the income over the
income-present cells — rounded to 2 decimal places (Python half-to-even
rounding) — and `None` when no cell has a present income value. -/
theorem weighted_income_from_spec (cells : List IrisCell) (hne : cells ≠ []) :
    (calculer_stats_zone_complet cells).lookup "Revenu médian pondéré (€)" =
      some (if (cells.filter (fun c => c.revenu.isSome)).isEmpty
            then StatValue.null
            else StatValue.rat (pyRound2 (specWeightedIncome cells))) :=
  income_entry_spec cells hne

/-- `⌊500/3⌋ = 166` over ℚ. -/
theorem floor_five_hundred_thirds : ⌊(500/3 : ℚ)⌋ = 166 := by
  rw [Int.floor_eq_iff]
  norm_num

/-- `round(5/3, 2) = 1.67`. -/
theorem pyRound2_five_thirds : pyRound2 (5/3 : ℚ) = 167/100 := by
  have h5 : (5/3 : ℚ) * 100 = 500/3 := by norm_num
  have hf := floor_five_hundred_thirds
  unfold pyRound2 pyRound
  rw [h5, hf]
  norm_num

/-- The spec formula evaluates to 5/3 on the counterexample cells. -/
theorem specWeightedIncome_cex : specWeightedIncome [cexC1, cexC2] = 5/3 := by
  norm_num [specWeightedIncome, cexC1, cexC2, mkCell]

/-- Claim C7 counterexample: on cells (pop 1, income 1) and (pop 2, income 2)
the stored entry is the rounded value 1.67, not the exact weighted average
5/3 that the claim states. -/
theorem weighted_income_not_exact_cex :
    (calculer_stats_zone_complet [cexC1, cexC2]).lookup "Revenu médian pondéré (€)" =
        some (StatValue.rat (167/100)) ∧
      specWeightedIncome [cexC1, cexC2] = 5/3 ∧ (167/100 : ℚ) ≠ 5/3 := by
  refine ⟨?_, specWeightedIncome_cex, by norm_num⟩
  rw [income_entry_spec _ (List.cons_ne_nil _ _), specWeightedIncome_cex,
    pyRound2_five_thirds]
  simp [cexC1, cexC2, mkCell]

/-- Witness for the amended C7 theorem at the one-cell list. -/
theorem weighted_income_from_spec_witness :
    (calculer_stats_zone_complet [cexC1]).lookup "Revenu médian pondéré (€)" =
      some (if ([cexC1].filter (fun c => c.revenu.isSome)).isEmpty
            then StatValue.null
            else StatValue.rat (pyRound2 (specWeightedIncome [cexC1]))) :=
  weighted_income_from_spec [cexC1] (List.cons_ne_nil _ _)

/-! ### Resolver path evaluation lemmas -/

theorem cacheLookup_nil (k : ZoneKey) : cacheLookup [] k = none := rfl

theorem cacheLookup_cons (k : ZoneKey) (v : ZoneVal)
    (rest : List (ZoneKey × ZoneVal)) (key : ZoneKey) :
    cacheLookup ((k, v) :: rest) key =
      if key = k then some v else cacheLookup rest key := rfl

/-- The resolver when the normalized class is absent from the parameters. -/
theorem resolveZone_noEnv (code env : String) (iris : CellIndex)
    (ps : List (String × EnvParam)) (st : ResolverState)
    (henv : lookupEnv ps (normalizeEnv env) = none) :
    _get_zone_for_group_distance code env iris ps st =
      (.error (.invalidConfig (normalizeEnv env)),
       { st with indexBuilt := true }, false) := by
  simp [_get_zone_for_group_distance, henv]

/-- The resolver when the configured radius is not strictly positive. -/
theorem resolveZone_badRadius (code env : String) (iris : CellIndex)
    (ps : List (String × EnvParam)) (st : ResolverState) (p : EnvParam)
    (henv : lookupEnv ps (normalizeEnv env) = some p)
    (hr : p.rayon_km.getD 0 ≤ 0) :
    _get_zone_for_group_distance code env iris ps st =
      (.error (.invalidConfig (normalizeEnv env)),
       { st with indexBuilt := true }, false) := by
  simp [_get_zone_for_group_distance, henv, hr]

/-- The resolver on a cache hit. -/
theorem resolveZone_hit (code env : String) (iris : CellIndex)
    (ps : List (String × EnvParam)) (st : ResolverState) (p : EnvParam)
    (v : ZoneVal)
    (henv : lookupEnv ps (normalizeEnv env) = some p)
    (hr : 0 < p.rayon_km.getD 0)
    (hhit : cacheLookup st.cache (code, normalizeEnv env, p.rayon_km.getD 0) = some v) :
    _get_zone_for_group_distance code env iris ps st =
      (.ok (iris.cells.filter (fun c => v.1.contains c.code), v.2),
       { st with indexBuilt := true }, false) := by
  simp [_get_zone_for_group_distance, henv, not_le.mpr hr, hhit]

/-- The resolver when the centre cell is absent. -/
theorem resolveZone_notFound (code env : String) (iris : CellIndex)
    (ps : List (String × EnvParam)) (st : ResolverState) (p : EnvParam)
    (henv : lookupEnv ps (normalizeEnv env) = some p)
    (hr : 0 < p.rayon_km.getD 0)
    (hmiss : cacheLookup st.cache (code, normalizeEnv env, p.rayon_km.getD 0) = none)
    (hnf : iris.cells.find? (fun c => c.code == code) = none) :
    _get_zone_for_group_distance code env iris ps st =
      (.error (.notFound code), { st with indexBuilt := true }, false) := by
  simp [_get_zone_for_group_distance, henv, not_le.mpr hr, hmiss, hnf]

/-- The resolver on a cache miss with an existing centre: the zone is
computed, cached and returned, and the spatial index is scanned. -/
theorem resolveZone_miss (code env : String) (iris : CellIndex)
    (ps : List (String × EnvParam)) (st : ResolverState) (p : EnvParam)
    (c0 : IrisCell)
    (henv : lookupEnv ps (normalizeEnv env) = some p)
    (hr : 0 < p.rayon_km.getD 0)
    (hmiss : cacheLookup st.cache (code, normalizeEnv env, p.rayon_km.getD 0) = none)
    (hfind : iris.cells.find? (fun c => c.code == code) = some c0) :
    _get_zone_for_group_distance code env iris ps st =
      (.ok (zone_for iris code (p.rayon_km.getD 0) c0,
            (computedVal iris code (p.rayon_km.getD 0) c0).2),
       ⟨true, ((code, normalizeEnv env, p.rayon_km.getD 0),
               computedVal iris code (p.rayon_km.getD 0) c0) :: st.cache⟩,
       true) := by
  simp [_get_zone_for_group_distance, computedVal, henv, not_le.mpr hr, hmiss, hfind]

/-- Membership in the kept codes of the candidate walk. -/
theorem keepWithin_codes_mem (lat0 lon0 r : ℝ) (l : List IrisCell) (x : String) :
    x ∈ (keepWithin lat0 lon0 r l).1 ↔
      ∃ c ∈ l, c.code = x ∧ haversine_km lat0 lon0 c.latC c.lonC ≤ r * 1.05 := by
  induction l with
  | nil => simp [keepWithin]
  | cons c rest ih =>
    by_cases hd : haversine_km lat0 lon0 c.latC c.lonC ≤ r * 1.05
    · simp only [keepWithin, if_pos hd, List.mem_cons, ih]
      constructor
      · rintro (rfl | ⟨c', hc', rfl, hle⟩)
        · exact ⟨c, Or.inl rfl, rfl, hd⟩
        · exact ⟨c', Or.inr hc', rfl, hle⟩
      · rintro ⟨c', (rfl | hc'), rfl, hle⟩
        · exact Or.inl rfl
        · exact Or.inr ⟨c', hc', rfl, hle⟩
    · simp only [keepWithin, if_neg hd, ih]
      constructor
      · rintro ⟨c', hc', rfl, hle⟩
        exact ⟨c', List.mem_cons_of_mem _ hc', rfl, hle⟩
      · rintro ⟨c', hc', rfl, hle⟩
        rcases List.mem_cons.mp hc' with rfl | hc''
        · exact absurd hle hd
        · exact ⟨c', hc'', rfl, hle⟩

/-- Membership among the spatial-index candidates. -/
theorem mem_candidats_for (iris : CellIndex) (code : String) (r : ℝ)
    (c : IrisCell) :
    c ∈ candidats_for iris code r ↔
      c ∈ iris.cells ∧ c.code ∈ iris.query code (r * 1000.0) := by
  simp [candidats_for, List.mem_filter, List.elem_iff]

/-- Membership in the resolved zone. -/
theorem mem_zone_for (iris : CellIndex) (code : String) (r : ℝ) (c0 c : IrisCell) :
    c ∈ zone_for iris code r c0 ↔
      c ∈ iris.cells ∧ c.code ∈ (keep_for iris code r c0).1 := by
  simp [zone_for, List.mem_filter, List.elem_iff]

/-! ### Claim C5: when and how the resolver fails with InvalidConfig -/

/-- Claim C5 (amended): the resolver fails with `InvalidConfig` iff the
trimmed, lowercased environment class is absent from the supplied parameters
or its configured radius is not strictly positive; on such a failure no
buffer is built, the spatial index is not queried and no distance is
computed (the scan flag is false), and the cache is untouched.  (Unlike the
original claim, the one-time global index preparation still runs before the
validation — see the counterexample.) -/
theorem resolveZone_invalidConfig_iff (code env : String) (iris : CellIndex)
    (ps : List (String × EnvParam)) (st : ResolverState) :
    ((∃ s, (_get_zone_for_group_distance code env iris ps st).1 =
        .error (.invalidConfig s)) ↔
      (lookupEnv ps (normalizeEnv env) = none ∨
       ∃ p, lookupEnv ps (normalizeEnv env) = some p ∧ p.rayon_km.getD 0 ≤ 0)) ∧
    (∀ s, (_get_zone_for_group_distance code env iris ps st).1 =
          .error (.invalidConfig s) →
        (_get_zone_for_group_distance code env iris ps st).2.2 = false ∧
        (_get_zone_for_group_distance code env iris ps st).2.1.cache = st.cache) := by
  rcases henv : lookupEnv ps (normalizeEnv env) with _ | p
  · rw [resolveZone_noEnv code env iris ps st henv]
    exact ⟨⟨fun _ => Or.inl rfl, fun _ => ⟨normalizeEnv env, rfl⟩⟩,
      fun s _ => ⟨rfl, rfl⟩⟩
  · by_cases hr : p.rayon_km.getD 0 ≤ 0
    · rw [resolveZone_badRadius code env iris ps st p henv hr]
      exact ⟨⟨fun _ => Or.inr ⟨p, rfl, hr⟩, fun _ => ⟨normalizeEnv env, rfl⟩⟩,
        fun s _ => ⟨rfl, rfl⟩⟩
    · have hrhs : ¬((some p : Option EnvParam) = none ∨
          ∃ p', (some p : Option EnvParam) = some p' ∧
            p'.rayon_km.getD 0 ≤ 0) := by
        rintro (h | ⟨p', hp', hr2⟩)
        · cases h
        · injection hp' with h'; subst h'; exact hr hr2
      have hr' : 0 < p.rayon_km.getD 0 := lt_of_not_le hr
      rcases hcl : cacheLookup st.cache
          (code, normalizeEnv env, p.rayon_km.getD 0) with _ | v
      · rcases hf : iris.cells.find? (fun c => c.code == code) with _ | c0
        · rw [resolveZone_notFound code env iris ps st p henv hr' hcl hf]
          refine ⟨⟨?_, fun h => absurd h hrhs⟩, ?_⟩
          · rintro ⟨s, hs⟩; simp at hs
          · intro s hs; simp at hs
        · rw [resolveZone_miss code env iris ps st p c0 henv hr' hcl hf]
          refine ⟨⟨?_, fun h => absurd h hrhs⟩, ?_⟩
          · rintro ⟨s, hs⟩; simp at hs
          · intro s hs; simp at hs
      · rw [resolveZone_hit code env iris ps st p v henv hr' hcl]
        refine ⟨⟨?_, fun h => absurd h hrhs⟩, ?_⟩
        · rintro ⟨s, hs⟩; simp at hs
        · intro s hs; simp at hs

/-- Claim C5 counterexample: calling the resolver on a fresh module state
with an unknown environment class ("suburban") does return `InvalidConfig`,
but the global spatial index gets prepared during that failing call
(`indexBuilt` flips from false to true), contradicting the claim that the
failure happens before any spatial work including the index build. -/
theorem invalidConfig_after_index_build_cex :
    (_get_zone_for_group_distance "A" "suburban" indexA psW st0).1 =
        .error (.invalidConfig "suburban") ∧
      (_get_zone_for_group_distance "A" "suburban" indexA psW st0).2.1.indexBuilt
        = true ∧
      st0.indexBuilt = false := by
  rw [resolveZone_noEnv "A" "suburban" indexA psW st0 rfl]
  exact ⟨rfl, rfl, rfl⟩

/-! ### Claim C4: the zone contains its centre cell -/

/-- A successful cache lookup comes from a stored entry. -/
theorem cacheLookup_mem {l : List (ZoneKey × ZoneVal)} {k : ZoneKey}
    {v : ZoneVal} (h : cacheLookup l k = some v) : (k, v) ∈ l := by
  induction l with
  | nil => exact absurd h (by simp [cacheLookup])
  | cons kv rest ih =>
    rcases kv with ⟨k', v'⟩
    rw [cacheLookup_cons] at h
    by_cases hk : k = k'
    · rw [if_pos hk] at h
      injection h with h'
      subst h'; subst hk
      exact List.mem_cons_self _ _
    · rw [if_neg hk] at h
      exact List.mem_cons_of_mem _ (ih h)

/-- Claim C4: for every existing centre cell and every environment class
whose configured radius is strictly positive, the resolved catchment zone
contains the centre cell.  Stated under the spatial-index contract that the
buffer query around a centre's own geometry reports that centre (`hq`, a
property of the external R-tree: the buffer of a geometry always intersects
the geometry itself), and the invariant that cached entries keep their own
centre code (`hcache`, which computed entries satisfy by construction). -/
theorem resolveZone_contains_centre (code env : String) (iris : CellIndex)
    (ps : List (String × EnvParam)) (st : ResolverState) (p : EnvParam)
    (c0 : IrisCell)
    (hq : ∀ r : ℝ, code ∈ iris.query code r)
    (hfind : iris.cells.find? (fun c => c.code == code) = some c0)
    (henv : lookupEnv ps (normalizeEnv env) = some p)
    (hr : 0 < p.rayon_km.getD 0)
    (hcache : ∀ kv ∈ st.cache, kv.1.1 ∈ kv.2.1) :
    ∃ z st' sc,
      _get_zone_for_group_distance code env iris ps st = (.ok z, st', sc) ∧
        c0 ∈ z.1 := by
  have hc0mem : c0 ∈ iris.cells := List.mem_of_find?_eq_some hfind
  have hc0code : c0.code = code := by
    have h := List.find?_some hfind
    simpa using h
  rcases hcl : cacheLookup st.cache
      (code, normalizeEnv env, p.rayon_km.getD 0) with _ | v
  · refine ⟨_, _, _, resolveZone_miss code env iris ps st p c0 henv hr hcl hfind, ?_⟩
    rw [mem_zone_for]
    refine ⟨hc0mem, ?_⟩
    rw [keep_for, keepWithin_codes_mem]
    refine ⟨c0, ?_, rfl, ?_⟩
    · rw [mem_candidats_for]
      exact ⟨hc0mem, by rw [hc0code]; exact hq _⟩
    · rw [haversine_same_point]
      nlinarith
  · refine ⟨_, _, _, resolveZone_hit code env iris ps st p v henv hr hcl, ?_⟩
    have hkmem := cacheLookup_mem hcl
    have hcode_in : code ∈ v.1 := hcache _ hkmem
    rw [List.mem_filter]
    exact ⟨hc0mem, by rw [hc0code]; exact (List.elem_iff).mpr hcode_in⟩

/-- Witness for C4 at a concrete one-cell world. -/
theorem resolveZone_contains_centre_witness :
    ∃ z st' sc,
      _get_zone_for_group_distance "A" "urban" indexA psW st0 = (.ok z, st', sc) ∧
        cellA ∈ z.1 :=
  resolveZone_contains_centre "A" "urban" indexA psW st0 ⟨some 2⟩ cellA
    (fun r => by simp [indexA]) rfl rfl (by norm_num) (by simp [st0])

/-! ### Claim C2: what the zone's cell set is exactly -/

/-- Claim C2 (amended): for an existing centre cell, a positive radius and
no prior cache entry, the resolved zone's cell set is exactly the loaded
cells that are BOTH reported by the planar spatial-index buffer query AND
whose centroid lies within radius × 1.05 km of the centre centroid.  It is
therefore a subset of the loaded cells within that distance — not, as the
original claim states, all of them: a within-range cell missed by the planar
candidate query is excluded (see the counterexample). -/
theorem resolveZone_zone_characterization (code env : String) (iris : CellIndex)
    (ps : List (String × EnvParam)) (st : ResolverState) (p : EnvParam)
    (c0 : IrisCell)
    (hfind : iris.cells.find? (fun c => c.code == code) = some c0)
    (henv : lookupEnv ps (normalizeEnv env) = some p)
    (hr : 0 < p.rayon_km.getD 0)
    (hmiss : cacheLookup st.cache (code, normalizeEnv env, p.rayon_km.getD 0) = none)
    (hnodup : (iris.cells.map (fun c => c.code)).Nodup) :
    ∃ stats st',
      _get_zone_for_group_distance code env iris ps st =
        (.ok (zone_for iris code (p.rayon_km.getD 0) c0, stats), st', true) ∧
      ∀ c, c ∈ zone_for iris code (p.rayon_km.getD 0) c0 ↔
        (c ∈ iris.cells ∧
         c.code ∈ iris.query code (p.rayon_km.getD 0 * 1000.0) ∧
         haversine_km c0.latC c0.lonC c.latC c.lonC ≤ p.rayon_km.getD 0 * 1.05) := by
  refine ⟨_, _, resolveZone_miss code env iris ps st p c0 henv hr hmiss hfind, ?_⟩
  intro c
  rw [mem_zone_for, keep_for, keepWithin_codes_mem]
  constructor
  · rintro ⟨hc, c', hc', hcode, hle⟩
    rw [mem_candidats_for] at hc'
    have hcc : c' = c := List.inj_on_of_nodup_map hnodup hc'.1 hc hcode
    subst hcc
    exact ⟨hc, hc'.2, hle⟩
  · rintro ⟨hc, hqmem, hle⟩
    exact ⟨hc, c, (mem_candidats_for _ _ _ _).mpr ⟨hc, hqmem⟩, rfl, hle⟩

/-- The candidate filter of the two-cell world keeps only cell "A". -/
theorem candidats_index2 (r : ℝ) : candidats_for index2 "A" r = [cellA] := rfl

/-- On the two-cell world the resolved zone is just `[cellA]`. -/
theorem zone_for_index2 :
    zone_for index2 "A" ((⟨some 2⟩ : EnvParam).rayon_km.getD 0) cellA = [cellA] := by
  show zone_for index2 "A" 2 cellA = [cellA]
  rw [zone_for, keep_for, candidats_index2]
  have hd : haversine_km cellA.latC cellA.lonC cellA.latC cellA.lonC ≤
      2 * 1.05 := by
    rw [haversine_same_point]; norm_num
  have hk : (keepWithin cellA.latC cellA.lonC 2 [cellA]).1 = ["A"] := by
    simp only [keepWithin, if_pos hd]
    rfl
  rw [hk]
  rfl

/-- Claim C2 counterexample: in the two-cell world both centroids coincide,
so cell "B" is within radius × 1.05 of the centre "A", yet the resolved
zone is `[cellA]` only, because the spatial-index candidate query did not
report "B".  The zone is NOT the set of all loaded cells within range. -/
theorem zone_misses_within_cell_cex :
    (∃ stats st',
      _get_zone_for_group_distance "A" "urban" index2 psW st0 =
        (.ok (([cellA] : List IrisCell), stats), st', true)) ∧
      cellB ∈ index2.cells ∧
      haversine_km cellA.latC cellA.lonC cellB.latC cellB.lonC ≤ 2 * 1.05 ∧
      cellB ∉ ([cellA] : List IrisCell) := by
  refine ⟨?_, by simp [index2], ?_, ?_⟩
  · have h := resolveZone_miss "A" "urban" index2 psW st0 ⟨some 2⟩ cellA
      rfl (by norm_num) rfl rfl
    rw [zone_for_index2] at h
    exact ⟨_, _, h⟩
  · have h0 : haversine_km cellA.latC cellA.lonC cellB.latC cellB.lonC = 0 := by
      show haversine_km 0 0 0 0 = 0
      exact haversine_same_point 0 0
    rw [h0]; norm_num
  · intro hmem
    have h := List.mem_singleton.mp hmem
    have hcode : cellB.code = cellA.code := congrArg IrisCell.code h
    exact absurd hcode (by decide)

/-- Witness for the amended C2 theorem at the two-cell world. -/
theorem resolveZone_zone_characterization_witness :
    ∃ stats st',
      _get_zone_for_group_distance "A" "urban" index2 psW st0 =
        (.ok (zone_for index2 "A" ((⟨some 2⟩ : EnvParam).rayon_km.getD 0) cellA,
          stats), st', true) ∧
      ∀ c, c ∈ zone_for index2 "A" ((⟨some 2⟩ : EnvParam).rayon_km.getD 0) cellA ↔
        (c ∈ index2.cells ∧
         c.code ∈ index2.query "A" ((⟨some 2⟩ : EnvParam).rayon_km.getD 0 * 1000.0) ∧
         haversine_km cellA.latC cellA.lonC c.latC c.lonC ≤
           (⟨some 2⟩ : EnvParam).rayon_km.getD 0 * 1.05) :=
  resolveZone_zone_characterization "A" "urban" index2 psW st0 ⟨some 2⟩ cellA
    rfl rfl (by norm_num) rfl (by decide)

/-! ### Claim C3: the memoization cache is keyed by the exact triple -/

/-- Claim C3: with an existing centre, a known class and a positive radius,
a second call with identical arguments returns the same result (same zone
membership, same statistics) served from the cache — the state is unchanged
and the spatial index is NOT re-scanned (scan flag false); and a call whose
key triple `(centre, normalized class, radius)` differs in any component
from the first call's — and is absent from the pre-existing cache — is
recomputed, scanning the spatial index (scan flag true). -/
theorem resolveZone_cache_triple (code env : String) (iris : CellIndex)
    (ps : List (String × EnvParam)) (st : ResolverState) (p : EnvParam)
    (c0 : IrisCell)
    (henv : lookupEnv ps (normalizeEnv env) = some p)
    (hr : 0 < p.rayon_km.getD 0)
    (hfind : iris.cells.find? (fun c => c.code == code) = some c0) :
    ((_get_zone_for_group_distance code env iris ps
        ((_get_zone_for_group_distance code env iris ps st).2.1)).1 =
      (_get_zone_for_group_distance code env iris ps st).1 ∧
     (_get_zone_for_group_distance code env iris ps
        ((_get_zone_for_group_distance code env iris ps st).2.1)).2.1 =
      (_get_zone_for_group_distance code env iris ps st).2.1 ∧
     (_get_zone_for_group_distance code env iris ps
        ((_get_zone_for_group_distance code env iris ps st).2.1)).2.2 = false) ∧
    (∀ code₂ env₂ (p₂ : EnvParam) (c₂ : IrisCell),
      lookupEnv ps (normalizeEnv env₂) = some p₂ →
      0 < p₂.rayon_km.getD 0 →
      iris.cells.find? (fun c => c.code == code₂) = some c₂ →
      (code₂, normalizeEnv env₂, p₂.rayon_km.getD 0) ≠
        (code, normalizeEnv env, p.rayon_km.getD 0) →
      cacheLookup st.cache (code₂, normalizeEnv env₂, p₂.rayon_km.getD 0) = none →
      (_get_zone_for_group_distance code₂ env₂ iris ps
        ((_get_zone_for_group_distance code env iris ps st).2.1)).2.2 = true) := by
  rcases hcl : cacheLookup st.cache (code, normalizeEnv env, p.rayon_km.getD 0)
    with _ | v
  · -- the first call is a fresh computation that stores its result
    have h1 := resolveZone_miss code env iris ps st p c0 henv hr hcl hfind
    have hhit : cacheLookup
        ((⟨true, ((code, normalizeEnv env, p.rayon_km.getD 0),
            computedVal iris code (p.rayon_km.getD 0) c0) :: st.cache⟩ :
          ResolverState)).cache
        (code, normalizeEnv env, p.rayon_km.getD 0) =
          some (computedVal iris code (p.rayon_km.getD 0) c0) := by
      show cacheLookup (((code, normalizeEnv env, p.rayon_km.getD 0),
          computedVal iris code (p.rayon_km.getD 0) c0) :: st.cache) _ = _
      rw [cacheLookup_cons, if_pos rfl]
    have h2 := resolveZone_hit code env iris ps
      ⟨true, ((code, normalizeEnv env, p.rayon_km.getD 0),
        computedVal iris code (p.rayon_km.getD 0) c0) :: st.cache⟩
      p (computedVal iris code (p.rayon_km.getD 0) c0) henv hr hhit
    constructor
    · simp only [h1]
      rw [h2]
      exact ⟨rfl, rfl, rfl⟩
    · intro code₂ env₂ p₂ c₂ henv₂ hr₂ hfind₂ hne hcl₂
      simp only [h1]
      have hcl₂' : cacheLookup
          ((⟨true, ((code, normalizeEnv env, p.rayon_km.getD 0),
              computedVal iris code (p.rayon_km.getD 0) c0) :: st.cache⟩ :
            ResolverState)).cache
          (code₂, normalizeEnv env₂, p₂.rayon_km.getD 0) = none := by
        show cacheLookup (((code, normalizeEnv env, p.rayon_km.getD 0),
            computedVal iris code (p.rayon_km.getD 0) c0) :: st.cache) _ = _
        rw [cacheLookup_cons, if_neg hne, hcl₂]
      rw [resolveZone_miss code₂ env₂ iris ps _ p₂ c₂ henv₂ hr₂ hcl₂' hfind₂]
  · -- the first call is already served from the cache
    have h1 := resolveZone_hit code env iris ps st p v henv hr hcl
    have h2 := resolveZone_hit code env iris ps
      ({ st with indexBuilt := true }) p v henv hr hcl
    constructor
    · simp only [h1]
      rw [h2]
      exact ⟨rfl, rfl, rfl⟩
    · intro code₂ env₂ p₂ c₂ henv₂ hr₂ hfind₂ hne hcl₂
      simp only [h1]
      rw [resolveZone_miss code₂ env₂ iris ps ({ st with indexBuilt := true })
        p₂ c₂ henv₂ hr₂ hcl₂ hfind₂]

/-- Witness for C3: on the one-cell world, the repeated "urban" call is
served from the cache without re-scanning, and switching to the "rural"
class (a different key triple) forces a recomputation that scans. -/
theorem resolveZone_cache_triple_witness :
    ((_get_zone_for_group_distance "A" "urban" indexA psW
        ((_get_zone_for_group_distance "A" "urban" indexA psW st0).2.1)).1 =
      (_get_zone_for_group_distance "A" "urban" indexA psW st0).1 ∧
     (_get_zone_for_group_distance "A" "urban" indexA psW
        ((_get_zone_for_group_distance "A" "urban" indexA psW st0).2.1)).2.1 =
      (_get_zone_for_group_distance "A" "urban" indexA psW st0).2.1 ∧
     (_get_zone_for_group_distance "A" "urban" indexA psW
        ((_get_zone_for_group_distance "A" "urban" indexA psW st0).2.1)).2.2
       = false) ∧
    (_get_zone_for_group_distance "A" "rural" indexA psW
        ((_get_zone_for_group_distance "A" "urban" indexA psW st0).2.1)).2.2
      = true := by
  obtain ⟨h1, h2⟩ := resolveZone_cache_triple "A" "urban" indexA psW st0
    ⟨some 2⟩ cellA rfl (by norm_num) rfl
  exact ⟨h1, h2 "A" "rural" ⟨some 3⟩ cellA rfl (by norm_num) rfl
    (fun h => absurd (congrArg (fun t => t.2.1) h) (by decide)) rfl⟩

/-! ### Properties of the per-cell aggregation building blocks -/

/-- Rows surviving the drop-duplicates walk come from the frame. -/
theorem mem_of_mem_dedupByCodeAux {seen : List String} {l : List IrisCell}
    {c : IrisCell} (h : c ∈ dedupByCodeAux seen l) : c ∈ l := by
  induction l generalizing seen with
  | nil => simp [dedupByCodeAux] at h
  | cons d rest ih =>
    rw [dedupByCodeAux] at h
    by_cases hs : seen.contains d.code
    · rw [if_pos hs] at h
      exact List.mem_cons_of_mem _ (ih h)
    · rw [if_neg hs] at h
      rcases List.mem_cons.mp h with rfl | h'
      · exact List.mem_cons_self _ _
      · exact List.mem_cons_of_mem _ (ih h')

/-- The codes kept by the walk: exactly the frame codes not already seen. -/
theorem mem_dedupByCodeAux_codes (seen : List String) (l : List IrisCell)
    (x : String) :
    (∃ c ∈ dedupByCodeAux seen l, c.code = x) ↔
      ((∃ c ∈ l, c.code = x) ∧ x ∉ seen) := by
  induction l generalizing seen with
  | nil => simp [dedupByCodeAux]
  | cons d rest ih =>
    rw [dedupByCodeAux]
    by_cases hs : seen.contains d.code
    · rw [if_pos hs]
      rw [ih seen]
      constructor
      · rintro ⟨⟨c, hc, rfl⟩, hx⟩
        exact ⟨⟨c, List.mem_cons_of_mem _ hc, rfl⟩, hx⟩
      · rintro ⟨⟨c, hc, rfl⟩, hx⟩
        rcases List.mem_cons.mp hc with rfl | h'
        · exact absurd (List.elem_iff.mp hs) hx
        · exact ⟨⟨c, h', rfl⟩, hx⟩
    · rw [if_neg hs]
      have hsd : d.code ∉ seen := fun hmem =>
        hs (List.elem_iff.mpr hmem)
      constructor
      · rintro ⟨c, hc, rfl⟩
        rcases List.mem_cons.mp hc with rfl | h'
        · exact ⟨⟨c, List.mem_cons_self _ _, rfl⟩, hsd⟩
        · obtain ⟨⟨c', hc', he⟩, hx⟩ := (ih (d.code :: seen)).mp ⟨c, h', rfl⟩
          exact ⟨⟨c', List.mem_cons_of_mem _ hc', he⟩,
            fun hmem => hx (List.mem_cons_of_mem _ hmem)⟩
      · rintro ⟨⟨c, hc, rfl⟩, hx⟩
        rcases List.mem_cons.mp hc with rfl | h'
        · exact ⟨c, List.mem_cons_self _ _, rfl⟩
        · by_cases hcd : c.code = d.code
          · exact ⟨d, List.mem_cons_self _ _, hcd.symm⟩
          · obtain ⟨c', hc', he⟩ := (ih (d.code :: seen)).mpr
              ⟨⟨c, h', rfl⟩, by
                intro hmem
                rcases List.mem_cons.mp hmem with h1 | h2
                · exact hcd h1
                · exact hx h2⟩
            exact ⟨c', List.mem_cons_of_mem _ hc', he⟩

/-- The walk never emits a seen code and emits each code at most once. -/
theorem dedupByCodeAux_codes_nodup (seen : List String) (l : List IrisCell) :
    ((dedupByCodeAux seen l).map (fun c => c.code)).Nodup ∧
      ∀ x ∈ (dedupByCodeAux seen l).map (fun c => c.code), x ∉ seen := by
  induction l generalizing seen with
  | nil => simp [dedupByCodeAux]
  | cons d rest ih =>
    rw [dedupByCodeAux]
    by_cases hs : seen.contains d.code
    · rw [if_pos hs]
      exact ih seen
    · rw [if_neg hs]
      have hsd : d.code ∉ seen := fun hmem => hs (List.elem_iff.mpr hmem)
      obtain ⟨hnd, hns⟩ := ih (d.code :: seen)
      simp only [List.map_cons, List.nodup_cons]
      refine ⟨⟨?_, hnd⟩, ?_⟩
      · intro hmem
        exact hns _ hmem (List.mem_cons_self _ _)
      · intro x hx
        rcases List.mem_cons.mp hx with rfl | h'
        · exact hsd
        · exact fun hmem => hns x h' (List.mem_cons_of_mem _ hmem)

/-- Every frame code keeps exactly one representative row. -/
theorem mem_dedupByCode_codes {l : List IrisCell} {x : String} :
    (∃ c ∈ dedupByCode l, c.code = x) ↔ ∃ c ∈ l, c.code = x := by
  rw [dedupByCode, mem_dedupByCodeAux_codes]
  simp

/-- The kept codes are pairwise distinct. -/
theorem dedupByCode_codes_nodup (l : List IrisCell) :
    ((dedupByCode l).map (fun c => c.code)).Nodup :=
  (dedupByCodeAux_codes_nodup [] l).1

/-- A row of the per-cell view: its code is a frame code, its count is the
coverage count, and the count is positive. -/
theorem mem_irisAggView {cells : List IrisCell} {Z : List ZoneRow}
    {code : String} {n : ℕ} :
    (code, n) ∈ irisAggView cells Z ↔
      ((∃ c ∈ cells, c.code = code) ∧ n = coverageCount Z code ∧ 0 < n) := by
  unfold irisAggView
  rw [List.mem_filter]
  simp only [List.mem_map, decide_eq_true_eq]
  constructor
  · rintro ⟨⟨c, hc, he⟩, hpos⟩
    injection he with he1 he2
    subst he1; subst he2
    exact ⟨mem_dedupByCode_codes.mp ⟨c, hc, rfl⟩, rfl, hpos⟩
  · rintro ⟨hex, rfl, hpos⟩
    obtain ⟨c, hc, rfl⟩ := mem_dedupByCode_codes.mpr hex
    exact ⟨⟨c, hc, rfl⟩, hpos⟩

/-- The per-cell view lists each code at most once. -/
theorem irisAggView_fst_nodup (cells : List IrisCell) (Z : List ZoneRow) :
    ((irisAggView cells Z).map Prod.fst).Nodup := by
  unfold irisAggView
  have hsub : ((((dedupByCode cells).map
        (fun c => (c.code, coverageCount Z c.code))).filter
          (fun r => decide (0 < r.2))).map Prod.fst).Sublist
      (((dedupByCode cells).map
        (fun c => (c.code, coverageCount Z c.code))).map Prod.fst) :=
    (List.filter_sublist _).map Prod.fst
  refine List.Nodup.sublist hsub ?_
  rw [List.map_map]
  exact dedupByCode_codes_nodup cells

/-- A cell has positive coverage iff some zone row contains it. -/
theorem coverageCount_pos_iff (Z : List ZoneRow) (code : String) :
    0 < coverageCount Z code ↔ ∃ zr ∈ Z, code ∈ zr.2.2 := by
  unfold coverageCount
  rw [List.length_pos]
  constructor
  · intro h
    rcases hd : ((Z.filter (fun zr => zr.2.2.contains code)).map
        (fun zr => zr.1)).dedup with _ | ⟨y, ys⟩
    · exact absurd hd h
    · have hy : y ∈ ((Z.filter (fun zr => zr.2.2.contains code)).map
          (fun zr => zr.1)).dedup := by rw [hd]; exact List.mem_cons_self _ _
      rw [List.mem_dedup] at hy
      obtain ⟨zr, hzr, _⟩ := List.mem_map.mp hy
      have hmem := List.mem_filter.mp hzr
      exact ⟨zr, hmem.1, List.elem_iff.mp hmem.2⟩
  · rintro ⟨zr, hzr, hcode⟩ hnil
    rw [List.dedup_eq_nil, List.map_eq_nil_iff, List.filter_eq_nil_iff] at hnil
    exact hnil zr hzr (by simpa [List.elem_iff] using hcode)

/-- The coverage count as the number of distinct covering centres. -/
theorem coverageCount_toFinset (Z : List ZoneRow) (code : String) :
    coverageCount Z code =
      ((Z.filter (fun zr => zr.2.2.contains code)).map
        (fun zr => zr.1)).toFinset.card := rfl

/-! ### Invariants of the group loop -/

/-- A successfully resolved zone only contains loaded cells (both the
cache-hit and the computed path filter `iris_socio_gdf`). -/
theorem resolveZone_ok_cells {code env : String} {iris : CellIndex}
    {ps : List (String × EnvParam)} {st : ResolverState}
    {z : List IrisCell × ZoneStats} {st' : ResolverState} {sc : Bool}
    (h : _get_zone_for_group_distance code env iris ps st = (.ok z, st', sc)) :
    ∀ c ∈ z.1, c ∈ iris.cells := by
  rcases henv : lookupEnv ps (normalizeEnv env) with _ | p
  · rw [resolveZone_noEnv _ _ _ _ _ henv] at h
    simp at h
  · by_cases hr : p.rayon_km.getD 0 ≤ 0
    · rw [resolveZone_badRadius _ _ _ _ _ p henv hr] at h
      simp at h
    · have hr' : 0 < p.rayon_km.getD 0 := lt_of_not_le hr
      rcases hcl : cacheLookup st.cache
          (code, normalizeEnv env, p.rayon_km.getD 0) with _ | v
      · rcases hf : iris.cells.find? (fun c => c.code == code) with _ | c0
        · rw [resolveZone_notFound _ _ _ _ _ p henv hr' hcl hf] at h
          simp at h
        · rw [resolveZone_miss _ _ _ _ _ p c0 henv hr' hcl hf] at h
          simp only [Prod.mk.injEq, Except.ok.injEq] at h
          obtain ⟨hz, _, _⟩ := h
          rw [← hz]
          intro c hc
          rw [zone_for] at hc
          exact (List.mem_filter.mp hc).1
      · rw [resolveZone_hit _ _ _ _ _ p v henv hr' hcl] at h
        simp only [Prod.mk.injEq, Except.ok.injEq] at h
        obtain ⟨hz, _, _⟩ := h
        rw [← hz]
        intro c hc
        exact (List.mem_filter.mp hc).1

/-- Every code of every zone row produced by the group loop is a loaded
cell's code. -/
theorem runGroups_zone_codes {iris : CellIndex} {ps : List (String × EnvParam)}
    {pwi : List (RelaisPoint × String)} {gs : List (String × String)}
    {st : ResolverState} {zp : List ZoneRow × List PointRow}
    {st' : ResolverState}
    (h : runGroups iris ps pwi gs st = (.ok zp, st')) :
    ∀ zr ∈ zp.1, ∀ x ∈ zr.2.2, ∃ c ∈ iris.cells, c.code = x := by
  induction gs generalizing st zp st' with
  | nil =>
    simp only [runGroups, Prod.mk.injEq, Except.ok.injEq] at h
    obtain ⟨hz, _⟩ := h
    rw [← hz]
    intro zr hzr
    simp at hzr
  | cons k rest ih =>
    rw [runGroups] at h
    rcases hg : _get_zone_for_group_distance k.1 k.2 iris ps st with ⟨res, stg, sc⟩
    rw [hg] at h
    rcases res with e | z
    · simp at h
    · rcases hrest : runGroups iris ps pwi rest stg with ⟨res2, st2⟩
      simp only [hrest] at h
      rcases res2 with e2 | zp2
      · simp at h
      · simp only [Prod.mk.injEq, Except.ok.injEq] at h
        obtain ⟨hz, _⟩ := h
        rw [← hz]
        intro zr hzr x hx
        rcases List.mem_cons.mp hzr with rfl | hzr'
        · obtain ⟨c, hc, rfl⟩ := List.mem_map.mp hx
          exact ⟨c, resolveZone_ok_cells hg c hc, rfl⟩
        · exact ih hrest zr hzr' x hx

/-- Splitting the group loop over an append. -/
theorem runGroups_append (iris : CellIndex) (ps : List (String × EnvParam))
    (pwi : List (RelaisPoint × String)) (l₁ l₂ : List (String × String))
    (st : ResolverState) :
    runGroups iris ps pwi (l₁ ++ l₂) st =
      match runGroups iris ps pwi l₁ st with
      | (.error e, st₁) => (.error e, st₁)
      | (.ok zp₁, st₁) =>
        match runGroups iris ps pwi l₂ st₁ with
        | (.error e, st₂) => (.error e, st₂)
        | (.ok zp₂, st₂) => (.ok (zp₁.1 ++ zp₂.1, zp₁.2 ++ zp₂.2), st₂)
  := by
  induction l₁ generalizing st with
  | nil =>
    simp only [List.nil_append, runGroups]
    rcases h2 : runGroups iris ps pwi l₂ st with ⟨res2, st2⟩
    rcases res2 with e2 | zp2 <;> simp
  | cons k rest ih =>
    rcases hg : _get_zone_for_group_distance k.1 k.2 iris ps st with ⟨res, stg, sc⟩
    rcases res with e | z
    · simp [runGroups, hg]
    · simp only [List.cons_append, runGroups, hg]
      rw [show (rest.append l₂ : List (String × String)) = rest ++ l₂ from rfl]
      rw [ih stg]
      generalize runGroups iris ps pwi rest stg = t1
      rcases t1 with ⟨res1, st1⟩
      rcases res1 with e1 | zp1
      · simp
      · rcases h2 : runGroups iris ps pwi l₂ st1 with ⟨res2, st2⟩
        rcases res2 with e2 | zp2 <;> simp [h2]

/-! ### Claim C1: a per-group failure aborts the whole pipeline -/

/-- Helper: if, after a prefix of groups is processed successfully, the next
group's resolution raises, the pipeline returns that error. -/
theorem compute_zones_error_of_group_error (points : List RelaisPoint)
    (iris : CellIndex) (ps : List (String × EnvParam)) (st : ResolverState)
    (pre : List (String × String)) (g : String × String)
    (post : List (String × String)) (zp : List ZoneRow × List PointRow)
    (st₁ : ResolverState) (e : ZoneError)
    (hsplit : groupKeys (pointsWithIris points) = pre ++ g :: post)
    (hpre : runGroups iris ps (pointsWithIris points) pre st = (.ok zp, st₁))
    (hg : (_get_zone_for_group_distance g.1 g.2 iris ps st₁).1 = .error e) :
    (compute_zones_for_relais points iris ps st).1 = .error e := by
  have hgrp : runGroups iris ps (pointsWithIris points)
      (groupKeys (pointsWithIris points)) st = (.error e,
        (_get_zone_for_group_distance g.1 g.2 iris ps st₁).2.1) := by
    rw [hsplit, runGroups_append, hpre]
    dsimp only
    rw [runGroups]
    rcases hgt : _get_zone_for_group_distance g.1 g.2 iris ps st₁ with ⟨res, stg, sc⟩
    rw [hgt] at hg
    rcases res with e' | z
    · injection hg with he
      subst he
      rfl
    · simp at hg
  rw [compute_zones_for_relais]
  dsimp only
  rw [hgrp]

/-- Claim C1 (amended): per-group failures are NOT caught at the pipeline
level.  If, after some prefix of groups has been processed successfully,
the next group's resolution raises (InvalidConfig or NotFound), the whole
`compute_zones_for_relais` run aborts with that error: the `Except.error`
result carries no views at all, so no partial results are returned for the
groups that succeeded. -/
theorem compute_zones_aborts_on_failure (points : List RelaisPoint)
    (iris : CellIndex) (ps : List (String × EnvParam)) (st : ResolverState)
    (pre : List (String × String)) (g : String × String)
    (post : List (String × String)) (zp : List ZoneRow × List PointRow)
    (st₁ : ResolverState) (e : ZoneError)
    (hsplit : groupKeys (pointsWithIris points) = pre ++ g :: post)
    (hpre : runGroups iris ps (pointsWithIris points) pre st = (.ok zp, st₁))
    (hg : (_get_zone_for_group_distance g.1 g.2 iris ps st₁).1 = .error e) :
    (compute_zones_for_relais points iris ps st).1 = .error e :=
  compute_zones_error_of_group_error points iris ps st pre g post zp st₁ e
    hsplit hpre hg

/-- Claim C1 counterexample: two points in cell "A", one "urban" (valid) and
one "suburban" (absent from the parameters).  The "urban" group resolves
successfully on its own, yet the whole pipeline returns only the
`InvalidConfig` error — no partial results for the successful group, a
total abort. -/
theorem pipeline_abort_cex :
    (∃ z, (_get_zone_for_group_distance "A" "urban" indexA psW st0).1 = .ok z) ∧
      (compute_zones_for_relais [p1, p2] indexA psW st0).1 =
        .error (.invalidConfig "suburban") := by
  have h1 := resolveZone_miss "A" "urban" indexA psW st0 ⟨some 2⟩ cellA
    rfl (by norm_num) rfl rfl
  constructor
  · exact ⟨_, by rw [h1]⟩
  · have hsplit : groupKeys (pointsWithIris [p1, p2]) =
        [("A", "urban")] ++ ("A", "suburban") :: [] := rfl
    have hpre : runGroups indexA psW (pointsWithIris [p1, p2])
        [("A", "urban")] st0 = (.ok ([("A", "urban",
          (zone_for indexA "A" ((⟨some 2⟩ : EnvParam).rayon_km.getD 0)
            cellA).map (fun c => c.code))],
          (groupMembers (pointsWithIris [p1, p2]) ("A", "urban")).map (fun p =>
            ({ id_point := p.id_point, nom_point := p.nom_point,
               latitude := p.lat, longitude := p.lon,
               statut_point := p.statut, code_iris_centre := "A",
               stats := flatten_stats (computedVal indexA "A"
                 ((⟨some 2⟩ : EnvParam).rayon_km.getD 0) cellA).2.socio,
               rayon_max_km := (computedVal indexA "A"
                 ((⟨some 2⟩ : EnvParam).rayon_km.getD 0) cellA).2.rayon_max_km,
               rayon_moy_km := (computedVal indexA "A"
                 ((⟨some 2⟩ : EnvParam).rayon_km.getD 0) cellA).2.rayon_moy_km,
               rayon_theorique_km := (computedVal indexA "A"
                 ((⟨some 2⟩ : EnvParam).rayon_km.getD 0) cellA).2.rayon_theorique_km }
              : PointRow))),
          ⟨true, (("A", normalizeEnv "urban",
              (⟨some 2⟩ : EnvParam).rayon_km.getD 0),
            computedVal indexA "A"
              ((⟨some 2⟩ : EnvParam).rayon_km.getD 0) cellA) :: st0.cache⟩) := by
      simp only [runGroups, h1, List.append_nil]
    have hsub : (_get_zone_for_group_distance "A" "suburban" indexA psW
        (⟨true, (("A", normalizeEnv "urban",
            (⟨some 2⟩ : EnvParam).rayon_km.getD 0),
          computedVal indexA "A"
            ((⟨some 2⟩ : EnvParam).rayon_km.getD 0) cellA) :: st0.cache⟩ :
          ResolverState)).1 = .error (.invalidConfig "suburban") := by
      rw [resolveZone_noEnv "A" "suburban" indexA psW _
        (show lookupEnv psW (normalizeEnv "suburban") = none from rfl)]
      rfl
    exact compute_zones_error_of_group_error [p1, p2] indexA psW st0
      [("A", "urban")] ("A", "suburban") [] _ _ _ hsplit hpre hsub

/-- Witness for the amended C1 theorem: a single "suburban" point makes the
whole run return `InvalidConfig`. -/
theorem compute_zones_aborts_on_failure_witness :
    (compute_zones_for_relais [p2] indexA psW st0).1 =
      .error (.invalidConfig "suburban") :=
  compute_zones_aborts_on_failure [p2] indexA psW st0 [] ("A", "suburban") []
    ([], []) st0 (.invalidConfig "suburban") rfl rfl
    (by
      rw [resolveZone_noEnv "A" "suburban" indexA psW st0
        (show lookupEnv psW (normalizeEnv "suburban") = none from rfl)]
      rfl)

/-! ### Claim C6: the per-cell view -/

/-- Claim C6: on every successful pipeline run, the per-cell view has one
row exactly for each statistical cell that belongs to at least one resolved
zone (none for cells covered by zero zones, and no duplicate rows), and each
row's `nb_zones_total` equals the number of distinct centre cells whose
resolved zone includes that cell. -/
theorem per_cell_view_coverage (points : List RelaisPoint) (iris : CellIndex)
    (ps : List (String × EnvParam)) (st : ResolverState)
    (res : PipelineResult) (st₁ : ResolverState)
    (hok : compute_zones_for_relais points iris ps st = (.ok res, st₁)) :
    ((res.iris_agg.map Prod.fst).Nodup) ∧
    (∀ code, (∃ n, (code, n) ∈ res.iris_agg) ↔
      ∃ zr ∈ res.zone_rows, code ∈ zr.2.2) ∧
    (∀ code n, (code, n) ∈ res.iris_agg →
      n = ((res.zone_rows.filter (fun zr => zr.2.2.contains code)).map
            (fun zr => zr.1)).toFinset.card ∧ 0 < n) := by
  rw [compute_zones_for_relais] at hok
  dsimp only at hok
  rcases hrun : runGroups iris ps (pointsWithIris points)
      (groupKeys (pointsWithIris points)) st with ⟨r0, st2⟩
  rw [hrun] at hok
  rcases r0 with e | zp
  · simp at hok
  · simp only [Prod.mk.injEq, Except.ok.injEq] at hok
    obtain ⟨hres, _⟩ := hok
    subst hres
    refine ⟨irisAggView_fst_nodup _ _, ?_, ?_⟩
    · intro code
      constructor
      · rintro ⟨n, hmem⟩
        obtain ⟨_, rfl, hpos⟩ := mem_irisAggView.mp hmem
        exact (coverageCount_pos_iff _ _).mp hpos
      · rintro ⟨zr, hzr, hcode⟩
        have hpos : 0 < coverageCount zp.1 code :=
          (coverageCount_pos_iff _ _).mpr ⟨zr, hzr, hcode⟩
        have hex : ∃ c ∈ iris.cells, c.code = code :=
          runGroups_zone_codes hrun zr hzr code hcode
        exact ⟨coverageCount zp.1 code, mem_irisAggView.mpr ⟨hex, rfl, hpos⟩⟩
    · intro code n hmem
      obtain ⟨_, rfl, hpos⟩ := mem_irisAggView.mp hmem
      exact ⟨coverageCount_toFinset _ _, hpos⟩

/-- On the one-cell world the resolved zone is `[cellA]`. -/
theorem zone_for_indexA :
    zone_for indexA "A" ((some 2 : Option ℝ).getD 0) cellA = [cellA] := by
  show zone_for indexA "A" 2 cellA = [cellA]
  rw [zone_for, keep_for]
  rw [show candidats_for indexA "A" 2 = [cellA] from rfl]
  have hd : haversine_km cellA.latC cellA.lonC cellA.latC cellA.lonC ≤
      2 * 1.05 := by
    rw [haversine_same_point]; norm_num
  have hk : (keepWithin cellA.latC cellA.lonC 2 [cellA]).1 = ["A"] := by
    simp only [keepWithin, if_pos hd]
    rfl
  rw [hk]
  rfl

/-- The single-point pipeline run, evaluated. -/
theorem compute_zones_single_run :
    compute_zones_for_relais [p1] indexA psW st0 = (.ok resA, stA) := by
  have h1 := resolveZone_miss "A" "urban" indexA psW st0 ⟨some 2⟩ cellA
    rfl (by norm_num) rfl rfl
  rw [compute_zones_for_relais]
  dsimp only
  rw [show groupKeys (pointsWithIris [p1]) = [("A", "urban")] from rfl]
  simp only [runGroups, h1, zone_for_indexA]
  rw [show resA = { zones_rows := [rowP1],
                    zone_rows := [("A", "urban", ["A"])],
                    iris_agg := [("A", 1)],
                    stats_globales := calculer_stats_zone_complet [cellA] }
    from rfl]
  rfl

/-- Witness for C6 at the single-point run. -/
theorem per_cell_view_coverage_witness :
    ((([(("A" : String), (1 : ℕ))].map Prod.fst).Nodup) ∧
    (∀ code, (∃ n, (code, n) ∈ [(("A" : String), (1 : ℕ))]) ↔
      ∃ zr ∈ [(("A" : String), ("urban" : String), (["A"] : List String))],
        code ∈ zr.2.2) ∧
    (∀ code n, (code, n) ∈ [(("A" : String), (1 : ℕ))] →
      n = (([(("A" : String), ("urban" : String),
              (["A"] : List String))].filter
              (fun zr => zr.2.2.contains code)).map
            (fun zr => zr.1)).toFinset.card ∧ 0 < n)) :=
  per_cell_view_coverage [p1] indexA psW st0 _ _ compute_zones_single_run

end Geomarketing
